import Mathlib

/-!
Verification of the flight-delay prediction core
(`prediction_engine.py`, `data_fetcher.py`).

Probabilities and rates are embedded as exact rationals (`ℚ`); the Python
code computes with IEEE doubles, but every concrete value proved about
below is an exact short decimal on which the two arithmetics agree.
The random draw of `np.random.randint(lo, hi)` is embedded by passing the
raw draw `rand : ℕ` explicitly and taking `lo + rand % (hi - lo)`, so the
dependence of a result on the generator state is visible in the type.
-/

namespace FlightDelay

/-! ## Profile tables (`_load_airline_stats`, `_load_airport_stats`) -/

structure AirlineStat where
  name : String
  delay_rate : ℚ
  on_time_rate : ℚ
deriving DecidableEq, Repr

structure AirportStat where
  name : String
  delay_rate : ℚ
  city : String
deriving DecidableEq, Repr

def airline_delay_stats : List (String × AirlineStat) :=
  [("CA", ⟨"中国国际航空", 18/100, 82/100⟩),
   ("MU", ⟨"中国东方航空", 22/100, 78/100⟩),
   ("CZ", ⟨"中国南方航空", 20/100, 80/100⟩),
   ("HU", ⟨"海南航空", 25/100, 75/100⟩),
   ("ZH", ⟨"深圳航空", 15/100, 85/100⟩),
   ("MF", ⟨"厦门航空", 12/100, 88/100⟩),
   ("HO", ⟨"吉祥航空", 14/100, 86/100⟩),
   ("9C", ⟨"春秋航空", 28/100, 72/100⟩),
   ("KN", ⟨"中国联合航空", 20/100, 80/100⟩),
   ("GS", ⟨"天津航空", 23/100, 77/100⟩)]

def airport_delay_stats : List (String × AirportStat) :=
  [("PEK", ⟨"北京首都", 25/100, "北京"⟩),
   ("PVG", ⟨"上海浦东", 22/100, "上海"⟩),
   ("CAN", ⟨"广州白云", 20/100, "广州"⟩),
   ("SZX", ⟨"深圳宝安", 18/100, "深圳"⟩),
   ("CTU", ⟨"成都天府", 15/100, "成都"⟩),
   ("CKG", ⟨"重庆江北", 17/100, "重庆"⟩),
   ("XIY", ⟨"西安咸阳", 14/100, "西安"⟩),
   ("HGH", ⟨"杭州萧山", 16/100, "杭州"⟩),
   ("NKG", ⟨"南京禄口", 13/100, "南京"⟩),
   ("TAO", ⟨"青岛胶东", 19/100, "青岛"⟩)]

/-! ## Date/time parsing (`datetime.strptime(s, "%Y-%m-%d %H:%M")`)

CPython's `_strptime` compiles this format to the regex
`\d\d\d\d - (1[0-2]|0[1-9]|[1-9]) - (3[01]|[12]\d|0[1-9]|[1-9]) \s+
(2[0-3]|[0-1]\d|\d) : ([0-5]\d|\d)` matched against the whole string,
after which `datetime()` validates the day against the month length.
With backtracking, each numeric field is equivalent to a maximal digit
run of bounded length followed by the delimiter, with the value range
checked; that is what is implemented here. -/

structure PyDateTime where
  year : ℕ
  month : ℕ
  day : ℕ
  hour : ℕ
  minute : ℕ
deriving DecidableEq, Repr

def natOfDigits (ds : List Char) : ℕ :=
  ds.foldl (fun n c => 10 * n + (c.toNat - 48)) 0

def isLeapYear (y : ℕ) : Bool :=
  (y % 4 == 0 && y % 100 != 0) || y % 400 == 0

def daysInMonth (y m : ℕ) : ℕ :=
  if m = 2 then (if isLeapYear y then 29 else 28)
  else if m = 4 ∨ m = 6 ∨ m = 9 ∨ m = 11 then 30
  else 31

def parse_datetime (s : String) : Option PyDateTime :=
  let (ys, r1) := s.data.span Char.isDigit
  match r1 with
  | '-' :: r2 =>
    let (ms, r3) := r2.span Char.isDigit
    match r3 with
    | '-' :: r4 =>
      let (ds, r5) := r4.span Char.isDigit
      let (sp, r6) := r5.span Char.isWhitespace
      let (hs, r7) := r6.span Char.isDigit
      match r7 with
      | ':' :: r8 =>
        let (mins, r9) := r8.span Char.isDigit
        if r9 = [] ∧ ys.length = 4 ∧
            1 ≤ ms.length ∧ ms.length ≤ 2 ∧
            1 ≤ ds.length ∧ ds.length ≤ 2 ∧
            1 ≤ sp.length ∧
            1 ≤ hs.length ∧ hs.length ≤ 2 ∧
            1 ≤ mins.length ∧ mins.length ≤ 2 then
          let y := natOfDigits ys
          let mo := natOfDigits ms
          let d := natOfDigits ds
          let h := natOfDigits hs
          let mi := natOfDigits mins
          -- value ranges from the regex, day-in-month and MINYEAR from datetime()
          if 1 ≤ y ∧ 1 ≤ mo ∧ mo ≤ 12 ∧ 1 ≤ d ∧ d ≤ daysInMonth y mo ∧
              h ≤ 23 ∧ mi ≤ 59 then
            some ⟨y, mo, d, h, mi⟩
          else none
        else none
      | _ => none
    | _ => none
  | _ => none

/-- Civil-calendar day count (Gregorian), days since 1970-01-01.
Standard era/year-of-era decomposition; all intermediate values are
naturals for `y ≥ 1`, `m ∈ [1,12]`, `d ≥ 1`. -/
def daysFromCivil (y m d : ℕ) : ℤ :=
  let yy := if m ≤ 2 then y - 1 else y
  let era := yy / 400
  let yoe := yy % 400
  let mp := if 2 < m then m - 3 else m + 9
  let doy := (153 * mp + 2) / 5 + d - 1
  let doe := yoe * 365 + yoe / 4 - yoe / 100 + doy
  (era : ℤ) * 146097 + (doe : ℤ) - 719468

/-- Python `datetime.weekday()`: Monday = 0 … Sunday = 6
(1970-01-01 was a Thursday, i.e. 3). -/
def weekdayOf (dt : PyDateTime) : ℕ :=
  ((daysFromCivil dt.year dt.month dt.day + 3) % 7).toNat

/-! ## Scoring factors (`_get_airline_factor` … `_get_route_factor`) -/

/-- `_get_airline_factor`: table lookup, default delay rate 0.2. -/
def get_airline_factor (airline_code : String) : ℚ :=
  ((airline_delay_stats.lookup airline_code).map (·.delay_rate)).getD (2/10)

/-- `_get_airport_factor`: mean of origin and destination delay rates,
each defaulting to 0.2. -/
def get_airport_factor (origin destination : String) : ℚ :=
  let origin_delay := ((airport_delay_stats.lookup origin).map (·.delay_rate)).getD (2/10)
  let dest_delay := ((airport_delay_stats.lookup destination).map (·.delay_rate)).getD (2/10)
  (origin_delay + dest_delay) / 2

/-- `_get_time_factor`: the three sequential `factor +=` / `-=` steps.
`hour : ℕ`, so the source's `0 <= hour` conjunct is always true. -/
def get_time_factor (hour weekday : ℕ) : ℚ :=
  (if 7 ≤ hour ∧ hour ≤ 9 then 25/100
   else if 17 ≤ hour ∧ hour ≤ 19 then 20/100 else 0)
  + (if weekday = 4 ∨ weekday = 5 ∨ weekday = 6 then 15/100 else 0)
  - (if hour ≤ 5 then 10/100 else 0)

/-- `_get_season_factor`: first matching season window wins. -/
def get_season_factor (month day : ℕ) : ℚ :=
  if month = 1 ∨ month = 2 then 20/100
  else if month = 7 ∨ month = 8 then 15/100
  else if month = 10 ∧ 1 ≤ day ∧ day ≤ 7 then 25/100
  else if month = 5 ∧ 1 ≤ day ∧ day ≤ 5 then 20/100
  else 0

def busy_routes : List (String × String) :=
  [("PEK", "PVG"), ("PEK", "CAN"), ("PVG", "CAN"), ("PEK", "SZX"), ("PVG", "CTU")]

/-- `_get_route_factor`. -/
def get_route_factor (origin destination : String) : ℚ :=
  if (origin, destination) ∈ busy_routes then 15/100
  else if (destination, origin) ∈ busy_routes then 10/100
  else 5/100

/-! ## Factor explanation (`_analyze_delay_factors`) -/

/-- `_analyze_delay_factors` (its `day` parameter is accepted but unused
in the source body as well). -/
def analyze_delay_factors (airline origin destination : String)
    (hour weekday month _day : ℕ) : List String :=
  let airline_stats := airline_delay_stats.lookup airline
  let origin_stats := airport_delay_stats.lookup origin
  let dest_stats := airport_delay_stats.lookup destination
  let factors :=
    (if ((airline_stats.map (·.delay_rate)).getD 0 > 25/100) then
       [((airline_stats.map (·.name)).getD airline) ++ "历史延误率较高"] else [])
    ++ (if ((origin_stats.map (·.delay_rate)).getD 0 > 25/100) then
       [((origin_stats.map (·.name)).getD origin) ++ "是繁忙机场"] else [])
    ++ (if ((dest_stats.map (·.delay_rate)).getD 0 > 25/100) then
       [((dest_stats.map (·.name)).getD destination) ++ "到达延误风险高"] else [])
    ++ (if 7 ≤ hour ∧ hour ≤ 9 then ["早高峰时段"]
        else if 17 ≤ hour ∧ hour ≤ 19 then ["晚高峰时段"] else [])
    ++ (if month = 1 ∨ month = 2 then ["春运期间"]
        else if month = 7 ∨ month = 8 then ["暑运期间"] else [])
    ++ (if weekday = 4 ∨ weekday = 5 ∨ weekday = 6 then ["周末客流较大"] else [])
  if factors.length < 2 then factors ++ ["常规运行条件下"] else factors

/-! ## Result formatting (`_format_prediction_result`) -/

structure PredictionResult where
  delay_probability : ℚ
  estimated_delay_minutes : ℕ
  risk_level : String
  confidence : ℚ
  model_used : String
  factors : List String
deriving DecidableEq, Repr

/-- Python `round(x, 3)`. Python rounds floats half-to-even; every
concrete value evaluated below is at least 0.00025 away from a
3-decimal halfway point, where all rounding modes agree. -/
def round3 (q : ℚ) : ℚ := (⌊q * 1000 + 1/2⌋ : ℤ) / 1000

/-- The first `if` chain of `_format_prediction_result`: estimated-delay
bucket `[lo, hi)` and confidence from the probability (its `risk_level`
assignments are dead — overwritten by the second chain below). -/
def delay_bucket_conf (delay_prob : ℚ) : ℕ × ℕ × ℚ :=
  if delay_prob < 3/10 then (0, 15, 9/10)
  else if delay_prob < 6/10 then (15, 45, 8/10)
  else (45, 120, 7/10)

/-- The second `if` chain of `_format_prediction_result`: risk level. -/
def risk_level_of (delay_prob : ℚ) : String :=
  if delay_prob < 2/10 then "极低"
  else if delay_prob < 4/10 then "低"
  else if delay_prob < 6/10 then "中"
  else if delay_prob < 8/10 then "高"
  else "极高"

/-- A flight-info dictionary: each field may be absent.
(`flight_number` is never read by the prediction path.) -/
structure FlightInfo where
  airline : Option String
  flight_number : Option String
  origin : Option String
  destination : Option String
  departure_date : Option String
  departure_time : Option String
deriving DecidableEq, Repr

/-- `_format_prediction_result` as called from the rules path (`factors`
always supplied, so the `factors is None` re-parse branch is not taken).
`np.random.randint(lo, hi)` is `lo + rand % (hi - lo)` for the raw draw
`rand`. The direct subscripts `flight_info['airline']` /
`['origin']` / `['destination']` raise `KeyError` when absent, embedded
as `none`. -/
def format_prediction_result (delay_prob : ℚ) (flight_info : FlightInfo)
    (model_type : String) (factors : List String) (rand : ℕ) :
    Option PredictionResult :=
  let (lo, hi, confidence) := delay_bucket_conf delay_prob
  let estimated_delay := lo + rand % (hi - lo)
  let risk_level := risk_level_of delay_prob
  match flight_info.airline, flight_info.origin, flight_info.destination with
  | some _, some _, some _ =>
    some { delay_probability := round3 delay_prob
           estimated_delay_minutes := estimated_delay
           risk_level := risk_level
           confidence := confidence
           model_used := model_type
           factors := factors }
  | _, _, _ => none

/-! ## The rule engine (`_predict_with_rules`) and `predict` -/

/-- `_get_default_prediction` (timestamp field omitted: wall-clock only). -/
def default_prediction : PredictionResult :=
  { delay_probability := 3/10
    estimated_delay_minutes := 15
    risk_level := "中"
    confidence := 1/2
    model_used := "默认引擎"
    factors := ["系统暂时无法分析具体因素"] }

/-- The pre-clamp sum of `_predict_with_rules`:
`0.15 + airline*0.3 + airport*0.25 + time*0.2 + season*0.15 + route*0.10`. -/
def rule_base_prob (airline origin destination : String)
    (hour weekday month day : ℕ) : ℚ :=
  15/100
  + get_airline_factor airline * (3/10)
  + get_airport_factor origin destination * (25/100)
  + get_time_factor hour weekday * (2/10)
  + get_season_factor month day * (15/100)
  + get_route_factor origin destination * (1/10)

/-- The `try` body of `_predict_with_rules`; `none` is a raised exception
(unparseable date/time, or a missing dict key inside
`_format_prediction_result`). -/
def predict_with_rules_core (flight_info : FlightInfo) (rand : ℕ) :
    Option PredictionResult :=
  let airline := flight_info.airline.getD "CA"
  let origin := flight_info.origin.getD "PEK"
  let destination := flight_info.destination.getD "PVG"
  let departure_date := flight_info.departure_date.getD "2024-01-01"
  let departure_time := flight_info.departure_time.getD "12:00"
  match parse_datetime (departure_date ++ " " ++ departure_time) with
  | none => none
  | some dt =>
    let hour := dt.hour
    let month := dt.month
    let weekday := weekdayOf dt
    let day := dt.day
    let base_prob := rule_base_prob airline origin destination hour weekday month day
    let delay_prob := max (5/100) (min (95/100) base_prob)
    let factors := analyze_delay_factors airline origin destination hour weekday month day
    format_prediction_result delay_prob flight_info "规则引擎" factors rand

/-- `_predict_with_rules`: its own `except` turns any exception into the
default prediction. -/
def predict_with_rules (flight_info : FlightInfo) (rand : ℕ) : PredictionResult :=
  (predict_with_rules_core flight_info rand).getD default_prediction

/-- `predict`: the repository ships no `models/*.pkl`, so `ml_model` is
`None` and the ML branch is skipped; `_predict_with_rules` never raises
(it catches internally), so the outer `except` is unreachable. -/
def predict (flight_info : FlightInfo) (rand : ℕ) : PredictionResult :=
  predict_with_rules flight_info rand

/-! ## TTL cache check (`data_fetcher.py`, `get_flight_status` /
`get_weather_data`) -/

/-- `timedelta.seconds` of an elapsed span given in microseconds: the
seconds *component* of the normalized `(days, seconds, microseconds)`
triple, i.e. whole seconds modulo one day — not the total. -/
def timedelta_seconds (elapsed_us : ℕ) : ℕ :=
  (elapsed_us / 1000000) % 86400

/-- The cache check both fetchers use:
`if (datetime.now() - cached_time).seconds < self.cache_timeout`. -/
def cache_serves_cached (stored_at_us now_us timeout : ℕ) : Bool :=
  timedelta_seconds (now_us - stored_at_us) < timeout

/-- One cached lookup: return `(value, recomputed?)`. A present entry is
served when the check above passes; otherwise (or on a missing key)
`compute` runs. Default `cache_timeout` is 300 seconds. -/
def cache_lookup {V : Type} (entry : Option (ℕ × V)) (now_us timeout : ℕ)
    (compute : V) : V × Bool :=
  match entry with
  | some (stored_at, v) =>
    if cache_serves_cached stored_at now_us timeout then (v, false)
    else (compute, true)
  | none => (compute, true)

/-- The §8 scenario query: CA, PEK→PVG, 2024-07-15 18:30. -/
def scenario_query : FlightInfo :=
  ⟨some "CA", some "CA1234", some "PEK", some "PVG",
   some "2024-07-15", some "18:30"⟩

/-- The unknown-codes scenario query: ZZ, XXX→YYY, 2024-01-01 03:00. -/
def unknown_codes_query : FlightInfo :=
  ⟨some "ZZ", some "ZZ9999", some "XXX", some "YYY",
   some "2024-01-01", some "03:00"⟩

/-- A query whose month field cannot be parsed. -/
def malformed_query : FlightInfo :=
  ⟨some "CA", some "CA1234", some "PEK", some "PVG",
   some "2024-13-01", some "12:00"⟩

/-! ## Evaluation lemmas -/

/-- Unfolding `_predict_with_rules` when the timestamp parses. -/
theorem core_of_parse_some (fi : FlightInfo) (rand : ℕ) (dt : PyDateTime)
    (h : parse_datetime ((fi.departure_date.getD "2024-01-01") ++ " " ++
        (fi.departure_time.getD "12:00")) = some dt) :
    predict_with_rules_core fi rand =
      format_prediction_result
        (max (5/100) (min (95/100)
          (rule_base_prob (fi.airline.getD "CA") (fi.origin.getD "PEK")
            (fi.destination.getD "PVG") dt.hour (weekdayOf dt) dt.month dt.day)))
        fi "规则引擎"
        (analyze_delay_factors (fi.airline.getD "CA") (fi.origin.getD "PEK")
          (fi.destination.getD "PVG") dt.hour (weekdayOf dt) dt.month dt.day)
        rand := by
  simp only [predict_with_rules_core, h]

/-- Unfolding `_predict_with_rules` when the timestamp does not parse. -/
theorem core_of_parse_none (fi : FlightInfo) (rand : ℕ)
    (h : parse_datetime ((fi.departure_date.getD "2024-01-01") ++ " " ++
        (fi.departure_time.getD "12:00")) = none) :
    predict_with_rules_core fi rand = none := by
  simp only [predict_with_rules_core, h]

/-- Pre-clamp sum for the §8 scenario:
`0.15 + 0.18·0.3 + 0.235·0.25 + 0.20·0.2 + 0.15·0.15 + 0.15·0.1 = 0.34025`. -/
theorem rule_base_prob_scenario :
    rule_base_prob "CA" "PEK" "PVG" 18 0 7 15 = 1361/4000 := by
  simp [rule_base_prob, get_airline_factor, get_airport_factor, get_time_factor,
    get_season_factor, get_route_factor, airline_delay_stats, airport_delay_stats,
    busy_routes, List.lookup]
  norm_num

theorem analyze_scenario :
    analyze_delay_factors "CA" "PEK" "PVG" 18 0 7 15 = ["晚高峰时段", "暑运期间"] := by
  simp [analyze_delay_factors, airline_delay_stats, airport_delay_stats, List.lookup]
  norm_num

/-- What the rule engine returns for the §8 scenario with raw draw `r`:
probability 0.34025 clamps to itself, reported as `round(·,3) = 0.34`;
the bucket is `[15,45)` (0.34025 ≥ 0.3) with confidence 0.8; risk 低. -/
def scenario_result (r : ℕ) : PredictionResult :=
  { delay_probability := 17/50
    estimated_delay_minutes := 15 + r % 30
    risk_level := "低"
    confidence := 4/5
    model_used := "规则引擎"
    factors := ["晚高峰时段", "暑运期间"] }

theorem core_scenario (r : ℕ) :
    predict_with_rules_core scenario_query r = some (scenario_result r) := by
  rw [core_of_parse_some scenario_query r ⟨2024, 7, 15, 18, 30⟩ (by decide)]
  have hw : weekdayOf ⟨2024, 7, 15, 18, 30⟩ = 0 := by decide
  simp only [scenario_query, Option.getD_some, hw]
  rw [rule_base_prob_scenario, analyze_scenario,
    min_eq_right (by norm_num), max_eq_right (by norm_num)]
  simp only [format_prediction_result, delay_bucket_conf, risk_level_of, round3,
    scenario_result]
  norm_num

theorem predict_scenario (r : ℕ) : predict scenario_query r = scenario_result r := by
  rw [predict, predict_with_rules, core_scenario, Option.getD_some]

/-- Pre-clamp sum for the unknown-codes scenario:
`0.15 + 0.2·0.3 + 0.2·0.25 + (−0.10)·0.2 + 0.20·0.15 + 0.05·0.1 = 0.275`. -/
theorem rule_base_prob_unknown :
    rule_base_prob "ZZ" "XXX" "YYY" 3 0 1 1 = 11/40 := by
  simp [rule_base_prob, get_airline_factor, get_airport_factor, get_time_factor,
    get_season_factor, get_route_factor, airline_delay_stats, airport_delay_stats,
    busy_routes, List.lookup]
  norm_num

theorem analyze_unknown :
    analyze_delay_factors "ZZ" "XXX" "YYY" 3 0 1 1 = ["春运期间", "常规运行条件下"] := by
  simp [analyze_delay_factors, airline_delay_stats, airport_delay_stats, List.lookup]
  norm_num

/-- What the rule engine returns for the unknown-codes scenario:
probability 0.275, bucket `[0,15)` (0.275 < 0.3), confidence 0.9, risk 低. -/
def unknown_codes_result (r : ℕ) : PredictionResult :=
  { delay_probability := 11/40
    estimated_delay_minutes := r % 15
    risk_level := "低"
    confidence := 9/10
    model_used := "规则引擎"
    factors := ["春运期间", "常规运行条件下"] }

theorem core_unknown (r : ℕ) :
    predict_with_rules_core unknown_codes_query r = some (unknown_codes_result r) := by
  rw [core_of_parse_some unknown_codes_query r ⟨2024, 1, 1, 3, 0⟩ (by decide)]
  have hw : weekdayOf ⟨2024, 1, 1, 3, 0⟩ = 0 := by decide
  simp only [unknown_codes_query, Option.getD_some, hw]
  rw [rule_base_prob_unknown, analyze_unknown,
    min_eq_right (by norm_num), max_eq_right (by norm_num)]
  simp only [format_prediction_result, delay_bucket_conf, risk_level_of, round3,
    unknown_codes_result]
  norm_num

theorem predict_unknown (r : ℕ) :
    predict unknown_codes_query r = unknown_codes_result r := by
  rw [predict, predict_with_rules, core_unknown, Option.getD_some]

/-- A successful `_format_prediction_result` fully determines the result
record from the probability, the model tag, the factors and the draw. -/
theorem format_prediction_result_some {delay_prob : ℚ} {fi : FlightInfo}
    {mt : String} {fs : List String} {rand : ℕ} {res : PredictionResult}
    (h : format_prediction_result delay_prob fi mt fs rand = some res) :
    res = { delay_probability := round3 delay_prob
            estimated_delay_minutes := (delay_bucket_conf delay_prob).1 +
              rand % ((delay_bucket_conf delay_prob).2.1 - (delay_bucket_conf delay_prob).1)
            risk_level := risk_level_of delay_prob
            confidence := (delay_bucket_conf delay_prob).2.2
            model_used := mt
            factors := fs } := by
  unfold format_prediction_result at h
  rcases hb : delay_bucket_conf delay_prob with ⟨lo, hi, conf⟩
  rw [hb] at h
  rcases hA : fi.airline with _ | a <;> rw [hA] at h <;>
    rcases hO : fi.origin with _ | o <;> rw [hO] at h <;>
      rcases hD : fi.destination with _ | d <;> rw [hD] at h <;>
        simp_all

/-- `round(·, 3)` maps `[0.05, 0.95]` into itself. -/
theorem round3_bounds {x : ℚ} (h1 : 5/100 ≤ x) (h2 : x ≤ 95/100) :
    5/100 ≤ round3 x ∧ round3 x ≤ 95/100 := by
  unfold round3
  have hlo : (50 : ℤ) ≤ ⌊x * 1000 + 1/2⌋ := by
    apply Int.le_floor.mpr
    push_cast
    linarith
  have hhi : ⌊x * 1000 + 1/2⌋ ≤ 950 := by
    have h950 : ⌊(1901/2 : ℚ)⌋ = 950 := by norm_num
    calc ⌊x * 1000 + 1/2⌋ ≤ ⌊(1901/2 : ℚ)⌋ := Int.floor_le_floor (by linarith)
    _ = 950 := h950
  constructor
  · have : ((50 : ℤ) : ℚ) ≤ (⌊x * 1000 + 1/2⌋ : ℚ) := by exact_mod_cast hlo
    linarith
  · have : ((⌊x * 1000 + 1/2⌋ : ℤ) : ℚ) ≤ ((950 : ℤ) : ℚ) := by exact_mod_cast hhi
    push_cast at this
    linarith

/-! ## Factor range lemmas (from the literal profile tables) -/

theorem get_airline_factor_bounds (a : String) :
    12/100 ≤ get_airline_factor a ∧ get_airline_factor a ≤ 28/100 := by
  unfold get_airline_factor
  simp only [airline_delay_stats, List.lookup]
  repeat' split
  all_goals norm_num

theorem get_airport_factor_bounds (o d : String) :
    13/100 ≤ get_airport_factor o d ∧ get_airport_factor o d ≤ 25/100 := by
  unfold get_airport_factor
  simp only [airport_delay_stats, List.lookup]
  repeat' split
  all_goals norm_num

theorem get_time_factor_bounds (h w : ℕ) :
    -(10/100) ≤ get_time_factor h w ∧ get_time_factor h w ≤ 40/100 := by
  unfold get_time_factor
  split_ifs <;> norm_num

theorem get_season_factor_bounds (m d : ℕ) :
    0 ≤ get_season_factor m d ∧ get_season_factor m d ≤ 25/100 := by
  unfold get_season_factor
  split_ifs <;> norm_num

theorem get_route_factor_bounds (o d : String) :
    5/100 ≤ get_route_factor o d ∧ get_route_factor o d ≤ 15/100 := by
  unfold get_route_factor
  split_ifs <;> norm_num

/-! ## Claims -/

/-- C1 (counterexample): the risk category does **not** determine the
bucket and confidence. The §8 scenario result has risk level Low (低)
yet confidence 0.8 (not 0.9) and an estimated delay of 15 minutes,
outside `[0,15)`. -/
theorem C1_low_risk_bucket_counterexample :
    (predict scenario_query 0).risk_level = "低" ∧
    (predict scenario_query 0).confidence = 8/10 ∧
    ¬ (predict scenario_query 0).estimated_delay_minutes < 15 ∧
    ¬ (predict scenario_query 0).confidence = 9/10 := by
  rw [predict_scenario]
  refine ⟨rfl, by norm_num [scenario_result], by simp [scenario_result], ?_⟩
  norm_num [scenario_result]

/-- C1 (amended): the estimated-delay bucket and the confidence are
determined by thresholds on the probability itself — `< 0.3 → [0,15),
0.9`; `[0.3, 0.6) → [15,45), 0.8`; `≥ 0.6 → [45,120), 0.7` — not by the
risk category (Low risk with probability in `[0.3, 0.4)` gets the
`[15,45)` bucket with confidence 0.8). -/
theorem C1_bucket_confidence_by_threshold (delay_prob : ℚ) (fi : FlightInfo)
    (mt : String) (fs : List String) (rand : ℕ) (res : PredictionResult)
    (h : format_prediction_result delay_prob fi mt fs rand = some res) :
    (delay_prob < 3/10 →
      res.estimated_delay_minutes < 15 ∧ res.confidence = 9/10) ∧
    (3/10 ≤ delay_prob ∧ delay_prob < 6/10 →
      15 ≤ res.estimated_delay_minutes ∧ res.estimated_delay_minutes < 45 ∧
      res.confidence = 8/10) ∧
    (6/10 ≤ delay_prob →
      45 ≤ res.estimated_delay_minutes ∧ res.estimated_delay_minutes < 120 ∧
      res.confidence = 7/10) := by
  rw [format_prediction_result_some h]
  refine ⟨fun hp => ?_, fun hp => ?_, fun hp => ?_⟩
  · have hb : delay_bucket_conf delay_prob = (0, 15, 9/10) := by
      simp [delay_bucket_conf, hp]
    simp only [hb]
    exact ⟨by omega, trivial⟩
  · have hb : delay_bucket_conf delay_prob = (15, 45, 8/10) := by
      simp [delay_bucket_conf, not_lt.mpr hp.1, hp.2]
    simp only [hb]
    exact ⟨by omega, by omega, trivial⟩
  · have hb : delay_bucket_conf delay_prob = (45, 120, 7/10) := by
      have h1 : ¬ delay_prob < 3/10 := not_lt.mpr (by linarith)
      have h2 : ¬ delay_prob < 6/10 := not_lt.mpr hp
      simp [delay_bucket_conf, h1, h2]
    simp only [hb]
    exact ⟨by omega, by omega, trivial⟩

theorem C1_bucket_confidence_by_threshold_witness :
    ((1361 : ℚ)/4000 < 3/10 →
      (scenario_result 0).estimated_delay_minutes < 15 ∧
      (scenario_result 0).confidence = 9/10) ∧
    (3/10 ≤ (1361 : ℚ)/4000 ∧ (1361 : ℚ)/4000 < 6/10 →
      15 ≤ (scenario_result 0).estimated_delay_minutes ∧
      (scenario_result 0).estimated_delay_minutes < 45 ∧
      (scenario_result 0).confidence = 8/10) ∧
    ((6 : ℚ)/10 ≤ (1361 : ℚ)/4000 →
      45 ≤ (scenario_result 0).estimated_delay_minutes ∧
      (scenario_result 0).estimated_delay_minutes < 120 ∧
      (scenario_result 0).confidence = 7/10) :=
  C1_bucket_confidence_by_threshold (1361/4000) scenario_query "规则引擎"
    ["晚高峰时段", "暑运期间"] 0 (scenario_result 0)
    (by simp only [format_prediction_result, delay_bucket_conf, risk_level_of,
          round3, scenario_query, scenario_result]
        norm_num)

/-- C2 (counterexample): a query whose month `13` makes the date/time
unparseable does **not** surface an error: `predict` returns the default
prediction record. -/
theorem C2_no_error_surfaced_counterexample :
    parse_datetime ("2024-13-01" ++ " " ++ "12:00") = none ∧
    predict malformed_query 0 = default_prediction := by
  refine ⟨by decide, ?_⟩
  rw [predict, predict_with_rules, core_of_parse_none malformed_query 0 (by decide),
    Option.getD_none]

/-- C2 (amended): `predict` never surfaces an error to its caller — it is
total. When the query's date/time cannot be parsed the exception from the
rule engine is caught and the default prediction is returned instead of
an `InvalidInput` error. -/
theorem C2_unparseable_yields_default (fi : FlightInfo) (r : ℕ)
    (h : parse_datetime ((fi.departure_date.getD "2024-01-01") ++ " " ++
        (fi.departure_time.getD "12:00")) = none) :
    predict fi r = default_prediction := by
  rw [predict, predict_with_rules, core_of_parse_none fi r h, Option.getD_none]

theorem C2_unparseable_yields_default_witness :
    predict malformed_query 0 = default_prediction :=
  C2_unparseable_yields_default malformed_query 0 (by decide)

/-- C3 (code bug): the delay probability is deterministic for identical
input, but the estimated delay minutes are drawn from the random stream
on every call: for the §8 scenario, two invocations with raw draws 0 and
1 return 15 and 16 minutes. -/
theorem C3_random_minutes_nondeterministic :
    (predict scenario_query 0).delay_probability =
      (predict scenario_query 1).delay_probability ∧
    (predict scenario_query 0).estimated_delay_minutes ≠
      (predict scenario_query 1).estimated_delay_minutes := by
  rw [predict_scenario, predict_scenario]
  exact ⟨rfl, by simp [scenario_result]⟩

/-- C4 (code bug): the cache freshness check uses `timedelta.seconds`
(seconds-of-day component) instead of total seconds, so an entry stored
exactly one day (86400 s ≥ ttl 300 s) before the lookup is served from
the cache without recomputing. -/
theorem C4_stale_entry_served_after_one_day :
    timedelta_seconds 86400000000 = 0 ∧
    cache_lookup (some (0, (42 : ℕ))) 86400000000 300 7 = (42, false) ∧
    300 ≤ 86400000000 / 1000000 := by
  refine ⟨by decide, by decide, by decide⟩

/-- C5 (counterexample): for the §8 scenario the probability 0.34 and
risk level Low are as claimed, but the estimated delay is 15 minutes
(the [15,45) bucket, since 0.34025 ≥ 0.3), not in `[0,15)`. -/
theorem C5_scenario_bucket_counterexample :
    (predict scenario_query 0).delay_probability = 34/100 ∧
    (predict scenario_query 0).risk_level = "低" ∧
    ¬ (predict scenario_query 0).estimated_delay_minutes < 15 := by
  rw [predict_scenario]
  exact ⟨by norm_num [scenario_result], rfl, by simp [scenario_result]⟩

/-- C5 (amended): the scenario yields probability 0.34 and risk Low, and
for every draw of the generator the estimated delay lies in `[15,45)`
with confidence 0.8. -/
theorem C5_scenario_amended (r : ℕ) :
    (predict scenario_query r).delay_probability = 34/100 ∧
    (predict scenario_query r).risk_level = "低" ∧
    15 ≤ (predict scenario_query r).estimated_delay_minutes ∧
    (predict scenario_query r).estimated_delay_minutes < 45 ∧
    (predict scenario_query r).confidence = 8/10 := by
  rw [predict_scenario]
  refine ⟨by norm_num [scenario_result], rfl, by simp [scenario_result],
    by simp [scenario_result]; omega, by norm_num [scenario_result]⟩

/-- C6: whenever the rule engine produces a result, its delay probability
lies in `[0.05, 0.95]`. -/
theorem C6_probability_clamped (fi : FlightInfo) (r : ℕ) (res : PredictionResult)
    (h : predict_with_rules_core fi r = some res) :
    5/100 ≤ res.delay_probability ∧ res.delay_probability ≤ 95/100 := by
  rcases hp : parse_datetime ((fi.departure_date.getD "2024-01-01") ++ " " ++
      (fi.departure_time.getD "12:00")) with _ | dt
  · rw [core_of_parse_none fi r hp] at h
    exact absurd h (by simp)
  · rw [core_of_parse_some fi r dt hp] at h
    rw [format_prediction_result_some h]
    apply round3_bounds
    · exact le_max_left _ _
    · exact max_le (by norm_num) (min_le_left _ _)

theorem C6_probability_clamped_witness :
    5/100 ≤ (scenario_result 0).delay_probability ∧
    (scenario_result 0).delay_probability ≤ 95/100 :=
  C6_probability_clamped scenario_query 0 (scenario_result 0) (core_scenario 0)

/-- C7: the risk thresholds are strict upper bounds evaluated low to
high, so a probability exactly at 0.2, 0.4, 0.6, 0.8 falls in the higher
of the two adjacent buckets. -/
theorem C7_boundary_probabilities_higher_bucket :
    risk_level_of (2/10) = "低" ∧ risk_level_of (4/10) = "中" ∧
    risk_level_of (6/10) = "高" ∧ risk_level_of (8/10) = "极高" := by
  refine ⟨?_, ?_, ?_, ?_⟩ <;> norm_num [risk_level_of]

/-- C8: carrier and airport codes absent from the profile tables fall
back to the default rate 0.2, and the unknown-codes scenario succeeds
with probability 0.275 and risk Low. -/
theorem C8_unknown_codes_default_rate :
    get_airline_factor "ZZ" = 2/10 ∧
    get_airport_factor "XXX" "YYY" = 2/10 ∧
    (predict unknown_codes_query 0).delay_probability = 275/1000 ∧
    (predict unknown_codes_query 0).risk_level = "低" := by
  rw [predict_unknown]
  refine ⟨?_, ?_, by norm_num [unknown_codes_result], rfl⟩
  · simp [get_airline_factor, airline_delay_stats, List.lookup]
  · simp [get_airport_factor, airport_delay_stats, List.lookup]

/-- C9: `predict` is total — embedded as a total function because every
exception path in the source is caught — and whenever the rule engine's
`try` body raises (`none`), the fixed default prediction with probability
0.3, risk 中, 15 minutes and confidence 0.5 is returned. -/
theorem C9_predict_total_default_fallback (fi : FlightInfo) (r : ℕ) :
    (∀ res, predict_with_rules_core fi r = some res → predict fi r = res) ∧
    (predict_with_rules_core fi r = none →
      predict fi r = default_prediction ∧
      default_prediction.delay_probability = 3/10 ∧
      default_prediction.risk_level = "中" ∧
      default_prediction.estimated_delay_minutes = 15 ∧
      default_prediction.confidence = 1/2) := by
  constructor
  · intro res h
    rw [predict, predict_with_rules, h, Option.getD_some]
  · intro h
    exact ⟨by rw [predict, predict_with_rules, h, Option.getD_none], rfl, rfl, rfl, rfl⟩

theorem C9_predict_total_default_fallback_witness :
    predict malformed_query 0 = default_prediction ∧
    default_prediction.delay_probability = 3/10 ∧
    default_prediction.risk_level = "中" ∧
    default_prediction.estimated_delay_minutes = 15 ∧
    default_prediction.confidence = 1/2 :=
  (C9_predict_total_default_fallback malformed_query 0).2
    (core_of_parse_none malformed_query 0 (by decide))

/-- C10: for every carrier/airport code and every feature tuple, the
pre-clamp sum lies in `[0.2035, 0.429]`, strictly inside `(0.05, 0.95)`,
so the clamp never binds. -/
theorem C10_clamp_never_binds (a o d : String) (h w m dy : ℕ) :
    2035/10000 ≤ rule_base_prob a o d h w m dy ∧
    rule_base_prob a o d h w m dy ≤ 429/1000 ∧
    max (5/100) (min (95/100) (rule_base_prob a o d h w m dy)) =
      rule_base_prob a o d h w m dy := by
  obtain ⟨hc1, hc2⟩ := get_airline_factor_bounds a
  obtain ⟨hp1, hp2⟩ := get_airport_factor_bounds o d
  obtain ⟨ht1, ht2⟩ := get_time_factor_bounds h w
  obtain ⟨hs1, hs2⟩ := get_season_factor_bounds m dy
  obtain ⟨hr1, hr2⟩ := get_route_factor_bounds o d
  unfold rule_base_prob
  refine ⟨by linarith, by linarith, ?_⟩
  rw [min_eq_right (by linarith), max_eq_right (by linarith)]

end FlightDelay
